import Mathlib

/-!
Verification of the spatial clustering + risk-scoring pipeline of the
velo-crash-insights repository (`src/analytics.py`).

The embedding below translates the two components the claims are about:

* `filter_data` (src/analytics.py, lines 112-195): the filter engine over
  an in-memory accident-record collection.
* `identify_blackspot_zones` (src/analytics.py, lines 310-383): DBSCAN
  blackspot clustering followed by per-cluster summaries and a risk score.

Modelling choices:

* A pandas row becomes a `Record`; the columns used by the two functions
  become fields.  Boolean involvement columns hold the strings
  `"true"`/`"false"`, exactly as the code compares them.
* Python floats become exact rationals.  They are represented by `Frac`,
  a numerator / positive-denominator pair with exact fraction arithmetic;
  this is the field `ℚ` with explicit fractions, chosen over Mathlib's
  `Rat` because the latter's arithmetic is `@[irreducible]` and hence not
  kernel-computable.  `Frac.le` is the rational order, so all distance
  comparisons are exact.
* `identify_blackspot_zones` calls `sklearn.cluster.DBSCAN(eps, min_samples,
  metric='euclidean').fit_predict`; that library routine is embedded
  faithfully below (`dbscanFitPredict`): a point is a neighbour of another
  when their Euclidean distance is at most `eps` (the point itself
  included), a point is core when its neighbourhood has at least
  `min_samples` members, the outer loop scans indices in order and starts
  a new cluster at every unlabelled core point, expansion labels every
  still-unlabelled neighbour of the cluster's core points, and points
  never relabel once labelled (so a border point keeps the first cluster
  that reached it).  Noise keeps the label `-1`.  scikit-learn validates
  `eps > 0` and `min_samples >= 1` and raises otherwise, which the
  embedding renders as `Option.none`.
* `pandas.Series.mode()` returns the most frequent values sorted
  ascending; `.unique()` returns values in order of first occurrence;
  `sort_values('risk_score', ascending=False)` is a descending sort on the
  risk column (numpy's default sort runs a stable insertion sort below 16
  elements, which the embedding's stable `List.insertionSort` matches).
-/

/-- An exact rational: numerator over a positive denominator.  Stands in
for the Python floats of the pipeline (coordinates, `eps_km`, centroids);
arithmetic is exact and kernel-computable. -/
structure Frac where
  num : Int
  den : Int
  den_pos : 0 < den

instance : DecidableEq Frac := fun a b =>
  if h : a.num = b.num ∧ a.den = b.den then
    isTrue (by cases a; cases b; simp only at h; simp [h.1, h.2])
  else
    isFalse (by intro he; cases he; exact h ⟨rfl, rfl⟩)

instance (n : Nat) : OfNat Frac n :=
  ⟨⟨Int.ofNat n, 1, Int.zero_lt_one⟩⟩

instance : Add Frac :=
  ⟨fun a b => ⟨a.num * b.den + b.num * a.den, a.den * b.den,
    Int.mul_pos a.den_pos b.den_pos⟩⟩

instance : Sub Frac :=
  ⟨fun a b => ⟨a.num * b.den - b.num * a.den, a.den * b.den,
    Int.mul_pos a.den_pos b.den_pos⟩⟩

instance : Mul Frac :=
  ⟨fun a b => ⟨a.num * b.num, a.den * b.den,
    Int.mul_pos a.den_pos b.den_pos⟩⟩

/-- Exact division; division by zero yields the junk value `0`, and is
never reached on the pipeline's inputs (the divisor is either the
constant `111.0` or a nonempty cluster's size). -/
instance : Div Frac :=
  ⟨fun a b =>
    if h : 0 < b.num then
      ⟨a.num * b.den, a.den * b.num, Int.mul_pos a.den_pos h⟩
    else if h2 : b.num < 0 then
      ⟨-(a.num * b.den), a.den * (-b.num),
        Int.mul_pos a.den_pos (by omega)⟩
    else 0⟩

/-- The rational order on fractions with positive denominators. -/
instance : LE Frac :=
  ⟨fun a b => a.num * b.den ≤ b.num * a.den⟩

instance (a b : Frac) : Decidable (a ≤ b) :=
  inferInstanceAs (Decidable (a.num * b.den ≤ b.num * a.den))

/-- One accident record: the columns of the pandas frame that
`filter_data` and `identify_blackspot_zones` read.  Involvement flags keep
their string encoding (`"true"`/`"false"`), as in the CSV. -/
structure Record where
  latitude : Frac
  longitude : Frac
  AccidentYear : Int
  AccidentMonth : Nat
  AccidentHour : Nat
  AccidentSeverityCategory : String
  AccidentSeverityCategory_en : String
  AccidentType_en : String
  RoadType_en : String
  CantonCode : String
  AccidentInvolvingPedestrian : String
  AccidentInvolvingBicycle : String
  AccidentInvolvingMotorcycle : String
deriving DecidableEq

/-- One blackspot summary row, as built in the loop of
`identify_blackspot_zones` (src/analytics.py, lines 363-375). -/
structure Blackspot where
  cluster_id : Int
  center_lat : Frac
  center_lon : Frac
  accident_count : Nat
  fatal_accidents : Nat
  severe_accidents : Nat
  light_accidents : Nat
  bicycle_accidents : Nat
  canton : String
  most_common_type : String
  risk_score : Nat
deriving DecidableEq

/-- Involved-parties part of `filter_data` (src/analytics.py, lines
156-181), for records that carry all three involvement columns: if no
party type is selected everything passes; otherwise a record passes when
it involves a selected party (OR over the selected flags) or when it
involves none of the three parties (lines 174-181). -/
def partyPass (r : Record) (sp sb sm : Bool) : Bool :=
  if !(sp || sb || sm) then
    true
  else
    ((sp && (r.AccidentInvolvingPedestrian == "true"))
      || (sb && (r.AccidentInvolvingBicycle == "true"))
      || (sm && (r.AccidentInvolvingMotorcycle == "true")))
    || ((r.AccidentInvolvingPedestrian == "false")
      && (r.AccidentInvolvingBicycle == "false")
      && (r.AccidentInvolvingMotorcycle == "false"))

/-- `filter_data` (src/analytics.py, lines 112-195).  Empty criterion
lists model Python `None` or `[]` (both falsy, so the corresponding
filter is skipped); `hour_range = none` models `hour_range=None`.  The
source's first statement is `filtered_df = df.copy()` and every later
statement rebinds the local name only, so the caller's collection is
returned unchanged as the second component of the result (the first
component is the function's return value). -/
def filter_data (df : List Record)
    (years : List Int) (severities : List String)
    (accident_types : List String) (road_types : List String)
    (cantons : List String)
    (show_pedestrian show_bicycle show_motorcycle : Bool)
    (months : List Nat) (hour_range : Option (Nat × Nat)) :
    List Record × List Record :=
  let d0 := df
  let d1 := if years = [] then d0 else
    d0.filter (fun r => years.contains r.AccidentYear)
  let d2 := if severities = [] then d1 else
    d1.filter (fun r => severities.contains r.AccidentSeverityCategory_en)
  let d3 := if accident_types = [] then d2 else
    d2.filter (fun r => accident_types.contains r.AccidentType_en)
  let d4 := if road_types = [] then d3 else
    d3.filter (fun r => road_types.contains r.RoadType_en)
  let d5 := if cantons = [] then d4 else
    d4.filter (fun r => cantons.contains r.CantonCode)
  let d6 := d5.filter
    (fun r => partyPass r show_pedestrian show_bicycle show_motorcycle)
  let d7 := if months = [] then d6 else
    d6.filter (fun r => months.contains r.AccidentMonth)
  let d8 := match hour_range with
    | none => d7
    | some (start_hour, end_hour) =>
        d7.filter (fun r =>
          decide (start_hour ≤ r.AccidentHour) && decide (r.AccidentHour ≤ end_hour))
  (d8, df)

/-- Squared Euclidean distance between two (latitude, longitude) pairs,
used to decide the DBSCAN neighbourhood relation (`metric='euclidean'`;
distance at most eps iff squared distance at most eps squared). -/
def sqDist (p q : Frac × Frac) : Frac :=
  (p.1 - q.1) * (p.1 - q.1) + (p.2 - q.2) * (p.2 - q.2)

/-- Indices of the points within distance `eps` of point `i` (the point
itself included), in index order; `eps2` is the squared radius.  This is
scikit-learn's `radius_neighbors` set for DBSCAN. -/
def neighborsOf (pts : List (Frac × Frac)) (eps2 : Frac) (i : Nat) : List Nat :=
  (List.range pts.length).filter
    (fun j => decide (sqDist (pts.getD i (0, 0)) (pts.getD j (0, 0)) ≤ eps2))

/-- A core point has at least `min_samples` points (itself included) in
its `eps`-neighbourhood. -/
def isCore (pts : List (Frac × Frac)) (eps2 : Frac) (m : Nat) (i : Nat) : Bool :=
  m ≤ (neighborsOf pts eps2 i).length

/-- DBSCAN cluster expansion (scikit-learn's `dbscan_inner` stack loop):
repeatedly take a point from the work list; if it is core, give every
still-unlabelled neighbour the current label and add it to the work list.
Every pushed point was unlabelled and is labelled at once, so each point
enters the work list at most once and `pts.length + 1` fuel suffices. -/
def expandLoop (pts : List (Frac × Frac)) (eps2 : Frac) (m : Nat) :
    Nat → List Int → Int → List Nat → List Int
  | 0, labels, _, _ => labels
  | _ + 1, labels, _, [] => labels
  | fuel + 1, labels, lbl, i :: stack =>
    if isCore pts eps2 m i then
      let fresh := (neighborsOf pts eps2 i).filter
        (fun j => labels.getD j 0 == -1)
      let labels1 := fresh.foldl (fun ls j => ls.set j lbl) labels
      expandLoop pts eps2 m fuel labels1 lbl (stack ++ fresh)
    else
      expandLoop pts eps2 m fuel labels lbl stack

/-- Outer DBSCAN loop (scikit-learn's `dbscan_inner`): scan the indices
in order; at every still-unlabelled core point start a new cluster with
the next label and expand it. -/
def dbscanGo (pts : List (Frac × Frac)) (eps2 : Frac) (m : Nat) :
    List Nat → List Int → Int → List Int
  | [], labels, _ => labels
  | i :: rest, labels, labelNum =>
    if labels.getD i 0 == -1 && isCore pts eps2 m i then
      let labels1 :=
        expandLoop pts eps2 m (pts.length + 1) (labels.set i labelNum) labelNum [i]
      dbscanGo pts eps2 m rest labels1 (labelNum + 1)
    else
      dbscanGo pts eps2 m rest labels labelNum

/-- `DBSCAN(eps=eps_degrees, min_samples=m, metric='euclidean')
.fit_predict(coords)`: every point starts with the noise label `-1`. -/
def dbscanFitPredict (pts : List (Frac × Frac)) (epsd : Frac) (m : Nat) : List Int :=
  dbscanGo pts (epsd * epsd) m (List.range pts.length)
    (List.replicate pts.length (-1)) 0

/-- Values of a list in order of first occurrence (`pandas.unique`). -/
def uniqueFirstAux {α : Type} [DecidableEq α] : List α → List α → List α
  | [], _ => []
  | x :: xs, seen =>
    if x ∈ seen then uniqueFirstAux xs seen
    else x :: uniqueFirstAux xs (x :: seen)

/-- `pandas.unique`: distinct values in order of first occurrence. -/
def uniqueFirst {α : Type} [DecidableEq α] (xs : List α) : List α :=
  uniqueFirstAux xs []

/-- How often value `v` occurs in `xs`. -/
def countVal (xs : List String) (v : String) : Nat :=
  (xs.filter (fun u => u == v)).length

/-- Lexicographic comparison of character lists by code point — the
order Python (and numpy's sort inside `pandas.Series.mode`) uses on
strings. -/
def lexLe : List Char → List Char → Bool
  | [], _ => true
  | _ :: _, [] => false
  | a :: as, b :: bs =>
    if a.toNat < b.toNat then true
    else if b.toNat < a.toNat then false
    else lexLe as bs

/-- Lexicographic string comparison by code point. -/
def strLeB (a b : String) : Bool :=
  lexLe a.data b.data

/-- `strLeB` as a relation, the sort order of `pandas.Series.mode`. -/
def strLeP (a b : String) : Prop :=
  strLeB a b = true

instance : DecidableRel strLeP :=
  fun a b => inferInstanceAs (Decidable (strLeB a b = true))

/-- `pandas.Series.mode()`: the values of maximal frequency, sorted
ascending. -/
def modeList (xs : List String) : List String :=
  let vals := uniqueFirst xs
  let mx := (vals.map (fun v => countVal xs v)).foldr max 0
  List.insertionSort strLeP
    (vals.filter (fun v => countVal xs v == mx))

/-- Arithmetic mean of a list of rationals (`pandas.Series.mean`); the
clusters it is applied to are never empty. -/
def fracMean (xs : List Frac) : Frac :=
  (xs.foldr (fun a b => a + b) 0) / (OfNat.ofNat xs.length)

/-- The cluster-statistics block of `identify_blackspot_zones`
(src/analytics.py, lines 344-375): centroid, member count, severity
breakdown, bicycle involvement, most common canton and accident type
(`mode().iloc[0]`, falling back to `'Unknown'` on an empty mode), and the
weighted risk score `fatal*5 + severe*3 + light*1`. -/
def summarize (cid : Int) (cd : List Record) : Blackspot :=
  let fatal_count := (cd.filter (fun r => r.AccidentSeverityCategory == "as1")).length
  let severe_count := (cd.filter (fun r => r.AccidentSeverityCategory == "as2")).length
  let light_count := (cd.filter (fun r => r.AccidentSeverityCategory == "as3")).length
  { cluster_id := cid
    center_lat := fracMean (cd.map (fun r => r.latitude))
    center_lon := fracMean (cd.map (fun r => r.longitude))
    accident_count := cd.length
    fatal_accidents := fatal_count
    severe_accidents := severe_count
    light_accidents := light_count
    bicycle_accidents := (cd.filter (fun r => r.AccidentInvolvingBicycle == "true")).length
    canton := (modeList (cd.map (fun r => r.CantonCode))).headD "Unknown"
    most_common_type := (modeList (cd.map (fun r => r.AccidentType_en))).headD "Unknown"
    risk_score := fatal_count * 5 + severe_count * 3 + light_count * 1 }

/-- The members of cluster `cid`: the records whose label is `cid`, in
record order (`df[df['cluster'] == cluster_id]`). -/
def clusterOf (df : List Record) (labels : List Int) (cid : Int) : List Record :=
  ((df.zip labels).filter (fun p => p.2 == cid)).map (fun p => p.1)

/-- The summary rows before sorting: one per non-noise label, in order of
first occurrence of the label (`for cluster_id in df['cluster'].unique()`
with `-1` skipped). -/
def blackspotList (df : List Record) (labels : List Int) : List Blackspot :=
  ((uniqueFirst labels).filter (fun c => c != -1)).map
    (fun cid => summarize cid (clusterOf df labels cid))

/-- Descending comparison on the risk column, the key of
`sort_values('risk_score', ascending=False)`. -/
def riskGe (a b : Blackspot) : Prop :=
  b.risk_score ≤ a.risk_score

instance : DecidableRel riskGe :=
  fun a b => inferInstanceAs (Decidable (b.risk_score ≤ a.risk_score))

/-- The cluster labels `identify_blackspot_zones` computes for a frame:
DBSCAN over the (latitude, longitude) pairs with
`eps_degrees = eps_km / 111.0`. -/
def theLabels (df : List Record) (eps_km : Frac) (min_samples : Nat) : List Int :=
  dbscanFitPredict (df.map (fun r => (r.latitude, r.longitude)))
    (eps_km / 111) min_samples

/-- `identify_blackspot_zones` (src/analytics.py, lines 310-383).  An
empty or undersized frame returns an empty frame before clustering;
scikit-learn's parameter validation (`eps > 0`, `min_samples >= 1`)
raises for other inputs, rendered as `none`; otherwise the summaries of
the non-noise clusters are returned sorted by descending risk score. -/
def identify_blackspot_zones (df : List Record) (eps_km : Frac)
    (min_samples : Nat) : Option (List Blackspot) :=
  if df.length = 0 ∨ df.length < min_samples then some []
  else if eps_km / 111 ≤ 0 ∨ min_samples < 1 then none
  else
    some (List.insertionSort riskGe
      (blackspotList df (theLabels df eps_km min_samples)))

/-! ### Basic lemmas about the embedded operations -/

theorem mem_uniqueFirstAux {α : Type} [DecidableEq α] (a : α) :
    ∀ (l seen : List α), a ∈ uniqueFirstAux l seen ↔ (a ∈ l ∧ a ∉ seen)
  | [], seen => by simp [uniqueFirstAux]
  | x :: xs, seen => by
    by_cases hx : x ∈ seen
    · rw [uniqueFirstAux, if_pos hx, mem_uniqueFirstAux a xs seen]
      constructor
      · exact fun ⟨h1, h2⟩ => ⟨List.mem_cons_of_mem x h1, h2⟩
      · rintro ⟨h1, h2⟩
        rcases List.mem_cons.mp h1 with rfl | h1
        · exact absurd hx h2
        · exact ⟨h1, h2⟩
    · rw [uniqueFirstAux, if_neg hx]
      constructor
      · intro h
        rcases List.mem_cons.mp h with rfl | h
        · exact ⟨List.mem_cons_self a xs, hx⟩
        · have := (mem_uniqueFirstAux a xs (x :: seen)).mp h
          exact ⟨List.mem_cons_of_mem x this.1,
            fun hs => this.2 (List.mem_cons_of_mem x hs)⟩
      · rintro ⟨h1, h2⟩
        rcases List.mem_cons.mp h1 with rfl | h1
        · exact List.mem_cons_self a _
        · by_cases hax : a = x
          · exact hax ▸ List.mem_cons_self a _
          · exact List.mem_cons_of_mem x
              ((mem_uniqueFirstAux a xs (x :: seen)).mpr
                ⟨h1, by simp [hax, h2]⟩)

theorem mem_uniqueFirst {α : Type} [DecidableEq α] (a : α) (l : List α) :
    a ∈ uniqueFirst l ↔ a ∈ l := by
  simp [uniqueFirst, mem_uniqueFirstAux]

theorem length_foldl_set (lbl : Int) :
    ∀ (js : List Nat) (ls : List Int),
      (js.foldl (fun ls j => ls.set j lbl) ls).length = ls.length
  | [], ls => rfl
  | j :: js, ls => by
    rw [List.foldl_cons, length_foldl_set lbl js, List.length_set]

theorem length_expandLoop (pts : List (Frac × Frac)) (eps2 : Frac) (m : Nat) :
    ∀ (fuel : Nat) (ls : List Int) (lbl : Int) (st : List Nat),
      (expandLoop pts eps2 m fuel ls lbl st).length = ls.length
  | 0, ls, lbl, st => rfl
  | fuel + 1, ls, lbl, [] => rfl
  | fuel + 1, ls, lbl, i :: st => by
    rw [expandLoop]
    split
    · rw [length_expandLoop pts eps2 m fuel, length_foldl_set]
    · exact length_expandLoop pts eps2 m fuel ls lbl st

theorem length_dbscanGo (pts : List (Frac × Frac)) (eps2 : Frac) (m : Nat) :
    ∀ (is : List Nat) (ls : List Int) (labelNum : Int),
      (dbscanGo pts eps2 m is ls labelNum).length = ls.length
  | [], ls, labelNum => rfl
  | i :: is, ls, labelNum => by
    rw [dbscanGo]
    split
    · rw [length_dbscanGo pts eps2 m is, length_expandLoop, List.length_set]
    · exact length_dbscanGo pts eps2 m is ls labelNum

theorem length_theLabels (df : List Record) (e : Frac) (m : Nat) :
    (theLabels df e m).length = df.length := by
  rw [theLabels, dbscanFitPredict, length_dbscanGo, List.length_replicate,
    List.length_map]

theorem clusterOf_ne_nil :
    ∀ (labels : List Int) (df : List Record) (cid : Int),
      cid ∈ labels → labels.length = df.length →
      clusterOf df labels cid ≠ []
  | [], df, cid, hmem, _ => absurd hmem (List.not_mem_nil cid)
  | c :: ls, [], cid, _, hlen => by simp at hlen
  | c :: ls, r :: rs, cid, hmem, hlen => by
    rw [clusterOf, List.zip_cons_cons, List.filter_cons]
    by_cases hc : c = cid
    · simp [hc]
    · have hmem' : cid ∈ ls := by
        rcases List.mem_cons.mp hmem with rfl | h
        · exact absurd rfl hc
        · exact h
      have hlen' : ls.length = rs.length := by
        simpa using hlen
      have := clusterOf_ne_nil ls rs cid hmem' hlen'
      simpa [clusterOf, show (c == cid) = false by simp [hc]] using this

instance : IsTotal Blackspot riskGe :=
  ⟨fun a b => Nat.le_total b.risk_score a.risk_score⟩

instance : IsTrans Blackspot riskGe :=
  ⟨fun _ _ _ hab hbc => Nat.le_trans hbc hab⟩

theorem lexLe_refl : ∀ (as : List Char), lexLe as as = true
  | [] => rfl
  | a :: as => by
    rw [lexLe, if_neg (Nat.lt_irrefl a.toNat), if_neg (Nat.lt_irrefl a.toNat)]
    exact lexLe_refl as

theorem lexLe_total : ∀ (as bs : List Char),
    lexLe as bs = true ∨ lexLe bs as = true
  | [], _ => Or.inl rfl
  | _ :: _, [] => Or.inr rfl
  | a :: as, b :: bs => by
    rw [lexLe, lexLe]
    rcases Nat.lt_trichotomy a.toNat b.toNat with h | h | h
    · left; rw [if_pos h]
    · rw [if_neg (show ¬ a.toNat < b.toNat by omega),
        if_neg (show ¬ b.toNat < a.toNat by omega),
        if_neg (show ¬ b.toNat < a.toNat by omega),
        if_neg (show ¬ a.toNat < b.toNat by omega)]
      exact lexLe_total as bs
    · right; rw [if_pos h]

theorem lexLe_trans : ∀ (as bs cs : List Char),
    lexLe as bs = true → lexLe bs cs = true → lexLe as cs = true
  | [], _, _, _, _ => rfl
  | a :: as, [], cs, hab, _ => by simp [lexLe] at hab
  | a :: as, b :: bs, [], _, hbc => by simp [lexLe] at hbc
  | a :: as, b :: bs, c :: cs, hab, hbc => by
    rw [lexLe] at hab hbc ⊢
    rcases Nat.lt_trichotomy a.toNat b.toNat with h1 | h1 | h1
    · rcases Nat.lt_trichotomy b.toNat c.toNat with h2 | h2 | h2
      · rw [if_pos (show a.toNat < c.toNat by omega)]
      · rw [if_pos (show a.toNat < c.toNat by omega)]
      · rw [if_neg (show ¬ b.toNat < c.toNat by omega),
          if_pos (show c.toNat < b.toNat by omega)] at hbc
        exact absurd hbc (by simp)
    · rcases Nat.lt_trichotomy b.toNat c.toNat with h2 | h2 | h2
      · rw [if_pos (show a.toNat < c.toNat by omega)]
      · rw [if_neg (show ¬ a.toNat < b.toNat by omega),
          if_neg (show ¬ b.toNat < a.toNat by omega)] at hab
        rw [if_neg (show ¬ b.toNat < c.toNat by omega),
          if_neg (show ¬ c.toNat < b.toNat by omega)] at hbc
        rw [if_neg (show ¬ a.toNat < c.toNat by omega),
          if_neg (show ¬ c.toNat < a.toNat by omega)]
        exact lexLe_trans as bs cs hab hbc
      · rw [if_neg (show ¬ b.toNat < c.toNat by omega),
          if_pos (show c.toNat < b.toNat by omega)] at hbc
        exact absurd hbc (by simp)
    · rw [if_neg (show ¬ a.toNat < b.toNat by omega),
        if_pos (show b.toNat < a.toNat by omega)] at hab
      exact absurd hab (by simp)

instance : IsTotal String strLeP :=
  ⟨fun a b => lexLe_total a.data b.data⟩

instance : IsTrans String strLeP :=
  ⟨fun a b c => lexLe_trans a.data b.data c.data⟩

theorem le_foldr_max : ∀ (l : List Nat) (x : Nat), x ∈ l → x ≤ l.foldr max 0
  | [], x, hx => absurd hx (List.not_mem_nil x)
  | y :: l, x, hx => by
    rw [List.foldr_cons]
    rcases List.mem_cons.mp hx with rfl | hx
    · exact Nat.le_max_left _ _
    · exact Nat.le_trans (le_foldr_max l x hx) (Nat.le_max_right _ _)

theorem foldr_max_attained :
    ∀ (l : List Nat), l.foldr max 0 ∈ l ∨ l.foldr max 0 = 0
  | [] => Or.inr rfl
  | y :: l => by
    rw [List.foldr_cons]
    rcases Nat.le_total (l.foldr max 0) y with h | h
    · rw [Nat.max_eq_left h]; exact Or.inl (List.mem_cons_self y l)
    · rw [Nat.max_eq_right h]
      rcases foldr_max_attained l with h2 | h2
      · exact Or.inl (List.mem_cons_of_mem y h2)
      · exact Or.inr h2

theorem countVal_pos (xs : List String) (v : String) (hv : v ∈ xs) :
    0 < countVal xs v := by
  rw [countVal]
  exact List.length_pos.mpr
    (List.ne_nil_of_mem (List.mem_filter.mpr ⟨hv, by simp⟩))

/-- `v` is a most frequent value of `xs` and the lexicographically least
among the most frequent values — the value `mode().iloc[0]` yields. -/
def IsLexLeastMode (xs : List String) (v : String) : Prop :=
  v ∈ xs ∧ (∀ u ∈ xs, countVal xs u ≤ countVal xs v)
    ∧ (∀ u ∈ xs, countVal xs u = countVal xs v → strLeP v u)

theorem modeList_headD_isLexLeastMode (xs : List String) (hxs : xs ≠ []) :
    IsLexLeastMode xs ((modeList xs).headD "Unknown") := by
  have hvals : ∀ u, u ∈ uniqueFirst xs ↔ u ∈ xs := fun u => mem_uniqueFirst u xs
  set mx := ((uniqueFirst xs).map (fun v => countVal xs v)).foldr max 0 with hmx
  set L := (uniqueFirst xs).filter (fun v => countVal xs v == mx) with hL
  have hub : ∀ u ∈ xs, countVal xs u ≤ mx := by
    intro u hu
    exact le_foldr_max _ _ (List.mem_map_of_mem _ ((hvals u).mpr hu))
  have hLne : L ≠ [] := by
    rcases foldr_max_attained ((uniqueFirst xs).map (fun v => countVal xs v)) with hat | h0
    · rcases List.mem_map.mp hat with ⟨v, hv, hveq⟩
      exact List.ne_nil_of_mem
        (List.mem_filter.mpr ⟨hv, by simp [hveq]⟩)
    · rcases List.exists_mem_of_ne_nil xs hxs with ⟨w, hw⟩
      have h1 : 0 < countVal xs w := countVal_pos xs w hw
      have h2 : countVal xs w ≤ mx := hub w hw
      omega
  have hperm : List.Perm (List.insertionSort strLeP L) L :=
    List.perm_insertionSort strLeP L
  have hsne : List.insertionSort strLeP L ≠ [] := by
    intro hnil
    exact hLne (List.Perm.nil_eq (hnil ▸ hperm)).symm
  obtain ⟨h0, t, hform⟩ : ∃ h0 t, List.insertionSort strLeP L = h0 :: t := by
    rcases he : List.insertionSort strLeP L with _ | ⟨h0, t⟩
    · exact absurd he hsne
    · exact ⟨h0, t, rfl⟩
  have hmode : modeList xs = h0 :: t := by
    rw [modeList]; exact hform
  have hh0L : h0 ∈ L := hperm.mem_iff.mp (hform ▸ List.mem_cons_self h0 t)
  have hh0vals : h0 ∈ uniqueFirst xs := (List.mem_filter.mp hh0L).1
  have hh0mx : countVal xs h0 = mx := by
    have := (List.mem_filter.mp hh0L).2
    simpa using this
  have hsorted : List.Sorted strLeP (h0 :: t) := hform ▸ List.sorted_insertionSort strLeP L
  refine ⟨?_, ?_, ?_⟩
  · rw [hmode]
    exact (hvals h0).mp hh0vals
  · intro u hu
    rw [hmode]
    simpa [hh0mx] using hub u hu
  · intro u hu hcnt
    rw [hmode] at hcnt ⊢
    have huL : u ∈ L := by
      refine List.mem_filter.mpr ⟨(hvals u).mpr hu, ?_⟩
      simp only [List.headD_cons] at hcnt
      simp [hcnt, hh0mx]
    have hu' : u ∈ h0 :: t := hform ▸ hperm.mem_iff.mpr huL
    simp only [List.headD_cons]
    rcases List.mem_cons.mp hu' with rfl | hut
    · exact lexLe_refl u.data
    · exact (List.sorted_cons.mp hsorted).1 u hut

/-- Every summary returned by `identify_blackspot_zones` is the summary
of the nonempty member list of one of the non-noise cluster labels. -/
theorem mem_identify {df : List Record} {e : Frac} {m : Nat}
    {out : List Blackspot} {s : Blackspot}
    (hout : identify_blackspot_zones df e m = some out) (hs : s ∈ out) :
    ∃ cid, cid ∈ theLabels df e m ∧ cid ≠ -1
      ∧ clusterOf df (theLabels df e m) cid ≠ []
      ∧ s = summarize cid (clusterOf df (theLabels df e m) cid) := by
  rw [identify_blackspot_zones] at hout
  split at hout
  · rw [Option.some.injEq] at hout
    rw [← hout] at hs
    exact absurd hs (List.not_mem_nil s)
  · split at hout
    · exact absurd hout (by simp)
    · rw [Option.some.injEq] at hout
      rw [← hout] at hs
      have hsmem : s ∈ blackspotList df (theLabels df e m) :=
        (List.perm_insertionSort riskGe _).mem_iff.mp hs
      rcases List.mem_map.mp hsmem with ⟨cid, hcid, hsum⟩
      rcases List.mem_filter.mp hcid with ⟨hcidu, hcidne⟩
      have hcidlab : cid ∈ theLabels df e m :=
        (mem_uniqueFirst cid (theLabels df e m)).mp hcidu
      have hne : cid ≠ -1 := by simpa using hcidne
      exact ⟨cid, hcidlab, hne,
        clusterOf_ne_nil (theLabels df e m) df cid hcidlab
          (length_theLabels df e m), hsum.symm⟩

theorem length_filter3_le {α : Type} (p q w : α → Bool)
    (hpq : ∀ x, p x = true → q x = false)
    (hpw : ∀ x, p x = true → w x = false)
    (hqw : ∀ x, q x = true → w x = false) :
    ∀ l : List α,
      (l.filter p).length + (l.filter q).length + (l.filter w).length ≤ l.length
  | [] => by simp
  | x :: l => by
    have ih := length_filter3_le p q w hpq hpw hqw l
    by_cases hp : p x = true
    · have hq := hpq x hp
      have hw := hpw x hp
      simp only [List.filter_cons, hp, hq, hw, if_pos, if_neg,
        Bool.false_eq_true, ite_false, ite_true, List.length_cons]
      omega
    · by_cases hq : q x = true
      · have hw := hqw x hq
        simp only [List.filter_cons, hq, hw, Bool.false_eq_true, ite_false,
          ite_true, List.length_cons, if_neg hp]
        omega
      · by_cases hw : w x = true
        · simp only [List.filter_cons, hw, ite_true, List.length_cons,
            if_neg hp, if_neg hq]
          omega
        · simp only [List.filter_cons, if_neg hp, if_neg hq, if_neg hw,
            List.length_cons]
          omega

/-- The three severity buckets are mutually exclusive, so their counts
together never exceed the member count. -/
theorem severity_counts_le (cd : List Record) :
    (cd.filter (fun r => r.AccidentSeverityCategory == "as1")).length
      + (cd.filter (fun r => r.AccidentSeverityCategory == "as2")).length
      + (cd.filter (fun r => r.AccidentSeverityCategory == "as3")).length
      ≤ cd.length := by
  refine length_filter3_le _ _ _ ?_ ?_ ?_ cd
  · intro r h
    have he : r.AccidentSeverityCategory = "as1" := by simpa using h
    rw [he]
    decide
  · intro r h
    have he : r.AccidentSeverityCategory = "as1" := by simpa using h
    rw [he]
    decide
  · intro r h
    have he : r.AccidentSeverityCategory = "as2" := by simpa using h
    rw [he]
    decide

/-! ### Concrete inputs used by counterexamples and witnesses -/

/-- Integer value as an exact fraction. -/
def fr (n : Int) : Frac :=
  ⟨n, 1, Int.zero_lt_one⟩

/-- A record at integer (latitude, longitude) with the given severity
code, canton and involvement flags; the remaining columns hold fixed
values that the clustering pipeline does not inspect. -/
def mkRec (lat lon : Int) (sev canton ped bike moto : String) : Record :=
  { latitude := fr lat, longitude := fr lon, AccidentYear := 2020,
    AccidentMonth := 6, AccidentHour := 12,
    AccidentSeverityCategory := sev, AccidentSeverityCategory_en := "x",
    AccidentType_en := "Collision", RoadType_en := "Minor road",
    CantonCode := canton, AccidentInvolvingPedestrian := ped,
    AccidentInvolvingBicycle := bike, AccidentInvolvingMotorcycle := moto }

/-- Placeholder summary row, used as the `headD` default. -/
def bsDefault : Blackspot :=
  { cluster_id := 0, center_lat := 0, center_lon := 0, accident_count := 0,
    fatal_accidents := 0, severe_accidents := 0, light_accidents := 0,
    bicycle_accidents := 0, canton := "", most_common_type := "",
    risk_score := 0 }

/-- Seven collinear points (latitude 0, longitudes 0,4,8,17,26,30,34),
clustered with `eps_km = 1110` (so `eps_degrees = 10`) and
`min_samples = 4`.  The point at 8 is core (neighbours 0,4,8,17); the
point at 17 is a border point claimed by the first cluster; the point at
26 is core (neighbours 17,26,30,34) but 17 is already labelled, so the
second cluster is only {26,30,34} — three members, below `min_samples`. -/
def exSteal : List Record :=
  [ mkRec 0 0 "as3" "ZH" "false" "false" "false",
    mkRec 0 4 "as3" "ZH" "false" "false" "false",
    mkRec 0 8 "as3" "ZH" "false" "false" "false",
    mkRec 0 17 "as3" "ZH" "false" "false" "false",
    mkRec 0 26 "as3" "ZH" "false" "false" "false",
    mkRec 0 30 "as3" "ZH" "false" "false" "false",
    mkRec 0 34 "as3" "ZH" "false" "false" "false" ]

/-- Seven collinear points clustered with `eps_degrees = 10` and
`min_samples = 3`.  The record at longitude 0 is a border point of the
cluster seeded at longitude 9 (which gets label 1, because the cluster
{100,104,108} is seeded first at index 1 and gets label 0).  Hence label
1 occurs first in row order, the pre-sort summary list is [cluster 1,
cluster 0], and both clusters have risk score 3 (cluster 1 holds the
severities as4,as3,as3,as3; cluster 0 holds as3,as3,as3). -/
def exTie : List Record :=
  [ mkRec 0 0 "as4" "ZH" "false" "false" "false",
    mkRec 0 100 "as3" "ZH" "false" "false" "false",
    mkRec 0 104 "as3" "ZH" "false" "false" "false",
    mkRec 0 108 "as3" "ZH" "false" "false" "false",
    mkRec 0 9 "as3" "ZH" "false" "false" "false",
    mkRec 0 17 "as3" "ZH" "false" "false" "false",
    mkRec 0 25 "as3" "ZH" "false" "false" "false" ]

/-- Two neighbouring records forming one cluster with a canton tie:
canton "ZH" is encountered first, "BE" second, both once. -/
def exPair : List Record :=
  [ mkRec 0 0 "as3" "ZH" "false" "false" "false",
    mkRec 0 1 "as3" "BE" "false" "false" "false" ]

/-- A record involving both a bicycle and a pedestrian. -/
def rex4 : Record :=
  mkRec 46 7 "as3" "ZH" "true" "true" "false"

/-- A record involving none of the three special parties. -/
def rex5 : Record :=
  mkRec 46 7 "as3" "ZH" "false" "false" "false"

/-! ### Claim theorems -/

/-- C1: for every cluster summary produced by `identify_blackspot_zones`,
the risk score field equals exactly 5 times the cluster's fatal-accident
count plus 3 times its severe-accident count plus 1 times its
light-accident count. -/
theorem c1_risk_score_weighted_sum (df : List Record) (e : Frac) (m : Nat)
    (out : List Blackspot) (s : Blackspot)
    (hout : identify_blackspot_zones df e m = some out) (hs : s ∈ out) :
    s.risk_score = 5 * s.fatal_accidents + 3 * s.severe_accidents
      + 1 * s.light_accidents := by
  rcases mem_identify hout hs with ⟨cid, _, _, _, hsum⟩
  rw [hsum]
  simp only [summarize]
  omega

/-- Witness for C1 on a concrete two-record frame with one cluster. -/
theorem c1_risk_score_weighted_sum_witness :
    (((identify_blackspot_zones exPair (fr 1110) 2).getD []).headD
        bsDefault).risk_score
      = 5 * (((identify_blackspot_zones exPair (fr 1110) 2).getD []).headD
          bsDefault).fatal_accidents
        + 3 * (((identify_blackspot_zones exPair (fr 1110) 2).getD []).headD
          bsDefault).severe_accidents
        + 1 * (((identify_blackspot_zones exPair (fr 1110) 2).getD []).headD
          bsDefault).light_accidents :=
  c1_risk_score_weighted_sum exPair (fr 1110) 2
    ((identify_blackspot_zones exPair (fr 1110) 2).getD [])
    (((identify_blackspot_zones exPair (fr 1110) 2).getD []).headD bsDefault)
    (by decide) (by decide)

/-- C2: if the collection is empty or has fewer records than
`min_samples`, `identify_blackspot_zones` returns an empty result and
raises no error. -/
theorem c2_undersized_returns_empty (df : List Record) (e : Frac) (m : Nat)
    (h : df.length = 0 ∨ df.length < m) :
    identify_blackspot_zones df e m = some [] := by
  rw [identify_blackspot_zones, if_pos h]

/-- Witness for C2: two records with `min_samples = 5`. -/
theorem c2_undersized_returns_empty_witness :
    (exPair.length = 0 ∨ exPair.length < 5)
      ∧ identify_blackspot_zones exPair (fr 1110) 5 = some [] :=
  ⟨by decide, c2_undersized_returns_empty exPair (fr 1110) 5 (by decide)⟩

/-- C3 (counterexample): the summaries are not returned in
cluster-discovery order on ties.  In `exTie` both clusters have risk
score 3, cluster 0 is discovered before cluster 1, yet the result lists
cluster 1 first: the pre-sort list follows the first occurrence of each
label in row order (a border point of cluster 1 sits at row 0), and the
sort keeps that order on ties, so equal-risk summaries do not retain
their relative cluster-discovery order. -/
theorem c3_stability_counterexample :
    ((identify_blackspot_zones exTie (fr 1110) 3).getD []).map
        (fun s => (s.cluster_id, s.risk_score)) = [(1, 3), (0, 3)]
      ∧ (identify_blackspot_zones exTie (fr 1110) 3).isSome = true := by
  constructor
  · decide
  · decide

/-- C3 (amended): for every input, the returned list of summaries is
sorted by non-increasing risk score; summaries with equal risk scores are
not guaranteed to appear in cluster-discovery order (the pre-sort list is
ordered by first occurrence of each cluster label in row order, which can
differ from discovery order, and `sort_values` uses pandas' default
non-stable quicksort for 16 or more rows). -/
theorem c3_sorted_by_descending_risk (df : List Record) (e : Frac) (m : Nat)
    (out : List Blackspot)
    (hout : identify_blackspot_zones df e m = some out) :
    List.Sorted riskGe out := by
  rw [identify_blackspot_zones] at hout
  split at hout
  · rw [Option.some.injEq] at hout
    rw [← hout]
    exact List.sorted_nil
  · split at hout
    · exact absurd hout (by simp)
    · rw [Option.some.injEq] at hout
      rw [← hout]
      exact List.sorted_insertionSort riskGe _

/-- Witness for the amended C3 on the concrete `exTie` frame. -/
theorem c3_sorted_by_descending_risk_witness :
    List.Sorted riskGe ((identify_blackspot_zones exTie (fr 1110) 3).getD []) :=
  c3_sorted_by_descending_risk exTie (fr 1110) 3 _ (by decide)

/-- C4 (counterexample): the filter has no "exact" involved-party mode.
With the bicycle flag selected and the others off, the record `rex4`
(bicycle involvement true, pedestrian involvement true) is returned, even
though an exact-match filter for the selection {Bicycle} would require
pedestrian involvement to be false. -/
theorem c4_exact_mode_counterexample :
    (filter_data [rex4] [] [] [] [] [] false true false [] none).1 = [rex4]
      ∧ rex4.AccidentInvolvingPedestrian = "true" := by
  constructor
  · decide
  · rfl

/-- C4 (amended): with only the bicycle flag selected (and no other
criteria), `filter_data` returns exactly those input records whose
bicycle involvement is "true" or whose three involvement flags are all
"false"; there is no exact-match mode. -/
theorem c4_bicycle_selection (df : List Record) :
    (filter_data df [] [] [] [] [] false true false [] none).1
      = df.filter (fun r => (r.AccidentInvolvingBicycle == "true")
          || ((r.AccidentInvolvingPedestrian == "false")
            && (r.AccidentInvolvingBicycle == "false")
            && (r.AccidentInvolvingMotorcycle == "false"))) := by
  show df.filter (fun r => partyPass r false true false) = _
  refine List.filter_congr ?_
  intro r _
  rw [partyPass]
  simp

/-- C5 (counterexample): in the any-of configuration with only the
bicycle flag selected, the record `rex5` involves no selected party (its
bicycle flag is "false"), yet it passes the involved-party filter,
because records involving none of the three parties always pass. -/
theorem c5_any_of_counterexample :
    partyPass rex5 false true false = true
      ∧ (rex5.AccidentInvolvingBicycle == "true") = false := by
  constructor
  · decide
  · decide

/-- C5 (amended): when at least one party is selected, a record passes
the involved-party filter if and only if it involves at least one
selected party or involves none of the three parties. -/
theorem c5_any_of_or_no_party (r : Record) (sp sb sm : Bool)
    (h : (sp || sb || sm) = true) :
    partyPass r sp sb sm = true ↔
      ((((sp && (r.AccidentInvolvingPedestrian == "true"))
        || (sb && (r.AccidentInvolvingBicycle == "true"))
        || (sm && (r.AccidentInvolvingMotorcycle == "true"))) = true)
      ∨ (((r.AccidentInvolvingPedestrian == "false")
        && (r.AccidentInvolvingBicycle == "false")
        && (r.AccidentInvolvingMotorcycle == "false")) = true)) := by
  rw [partyPass, h]
  simp

/-- Witness for the amended C5: selection {Bicycle} on `rex5`. -/
theorem c5_any_of_or_no_party_witness :
    ((false || true || false) = true)
      ∧ (partyPass rex5 false true false = true ↔
          ((((false && (rex5.AccidentInvolvingPedestrian == "true"))
            || (true && (rex5.AccidentInvolvingBicycle == "true"))
            || (false && (rex5.AccidentInvolvingMotorcycle == "true"))) = true)
          ∨ (((rex5.AccidentInvolvingPedestrian == "false")
            && (rex5.AccidentInvolvingBicycle == "false")
            && (rex5.AccidentInvolvingMotorcycle == "false")) = true))) :=
  ⟨rfl, c5_any_of_or_no_party rex5 false true false rfl⟩

/-- C6 (counterexample): ties in the most-frequent fields are not broken
by the first-encountered value.  In `exPair` the single cluster's members
have cantons "ZH" (first encountered) and "BE", each once; the summary's
canton field is "BE", because `pandas.Series.mode()` returns the tied
modes sorted ascending and the code takes the first. -/
theorem c6_tie_break_counterexample :
    exPair.map (fun r => r.CantonCode) = ["ZH", "BE"]
      ∧ ((identify_blackspot_zones exPair (fr 1110) 2).getD []).map
          (fun s => s.canton) = ["BE"]
      ∧ (identify_blackspot_zones exPair (fr 1110) 2).isSome = true := by
  refine ⟨by decide, by decide, by decide⟩

/-- C6 (amended): the most-frequent canton and accident-type fields of
every summary hold a value of maximal frequency among the cluster's
members, and ties are broken by the lexicographically smallest value
(`mode()` returns the tied modes sorted ascending), not by
first-encountered order. -/
theorem c6_mode_fields_lex_least (df : List Record) (e : Frac) (m : Nat)
    (out : List Blackspot) (s : Blackspot)
    (hout : identify_blackspot_zones df e m = some out) (hs : s ∈ out) :
    ∃ cid, s = summarize cid (clusterOf df (theLabels df e m) cid)
      ∧ IsLexLeastMode
          ((clusterOf df (theLabels df e m) cid).map (fun r => r.CantonCode))
          s.canton
      ∧ IsLexLeastMode
          ((clusterOf df (theLabels df e m) cid).map (fun r => r.AccidentType_en))
          s.most_common_type := by
  rcases mem_identify hout hs with ⟨cid, _, _, hne, hsum⟩
  refine ⟨cid, hsum, ?_, ?_⟩
  · have hmapne :
        (clusterOf df (theLabels df e m) cid).map (fun r => r.CantonCode) ≠ [] := by
      simpa using hne
    have hmode := modeList_headD_isLexLeastMode _ hmapne
    rw [hsum]
    simpa only [summarize] using hmode
  · have hmapne :
        (clusterOf df (theLabels df e m) cid).map (fun r => r.AccidentType_en) ≠ [] := by
      simpa using hne
    have hmode := modeList_headD_isLexLeastMode _ hmapne
    rw [hsum]
    simpa only [summarize] using hmode

/-- Witness for the amended C6 on the concrete `exPair` frame. -/
theorem c6_mode_fields_lex_least_witness :
    ∃ cid, (((identify_blackspot_zones exPair (fr 1110) 2).getD []).headD
          bsDefault)
        = summarize cid (clusterOf exPair (theLabels exPair (fr 1110) 2) cid)
      ∧ IsLexLeastMode
          ((clusterOf exPair (theLabels exPair (fr 1110) 2) cid).map
            (fun r => r.CantonCode))
          (((identify_blackspot_zones exPair (fr 1110) 2).getD []).headD
            bsDefault).canton
      ∧ IsLexLeastMode
          ((clusterOf exPair (theLabels exPair (fr 1110) 2) cid).map
            (fun r => r.AccidentType_en))
          (((identify_blackspot_zones exPair (fr 1110) 2).getD []).headD
            bsDefault).most_common_type :=
  c6_mode_fields_lex_least exPair (fr 1110) 2
    ((identify_blackspot_zones exPair (fr 1110) 2).getD [])
    (((identify_blackspot_zones exPair (fr 1110) 2).getD []).headD bsDefault)
    (by decide) (by decide)

/-- C7: `filter_data` is side-effect free — the caller's collection is
unchanged after the call (the source copies the frame before filtering)
— and an empty result is a valid, non-error outcome (the empty frame
filters to the empty result without error). -/
theorem c7_filter_pure_empty_ok (df : List Record) (years : List Int)
    (severities accident_types road_types cantons : List String)
    (sp sb sm : Bool) (months : List Nat) (hr : Option (Nat × Nat)) :
    (filter_data df years severities accident_types road_types cantons
        sp sb sm months hr).2 = df
      ∧ (filter_data [] years severities accident_types road_types cantons
        sp sb sm months hr).1 = [] := by
  constructor
  · rfl
  · cases hr with
    | none => simp [filter_data]
    | some p =>
      cases p with
      | mk a b => simp [filter_data]

/-- C8: running the clustering twice with identical input collection and
identical `eps_km` and `min_samples` yields identical results — the
computation is deterministic. -/
theorem c8_deterministic (df1 df2 : List Record) (e1 e2 : Frac)
    (m1 m2 : Nat) (hdf : df1 = df2) (he : e1 = e2) (hm : m1 = m2) :
    identify_blackspot_zones df1 e1 m1 = identify_blackspot_zones df2 e2 m2 := by
  rw [hdf, he, hm]

/-- Witness for C8 on the concrete `exPair` frame. -/
theorem c8_deterministic_witness :
    exPair = exPair
      ∧ identify_blackspot_zones exPair (fr 1110) 2
        = identify_blackspot_zones exPair (fr 1110) 2 :=
  ⟨rfl, c8_deterministic exPair exPair (fr 1110) (fr 1110) 2 2 rfl rfl rfl⟩

/-- C9 (counterexample): a returned cluster can have fewer members than
`min_samples`.  In `exSteal` with `min_samples = 4` the second summary
has only 3 members: the border point at row 3 is within range of the
second cluster's seed but was already claimed by the first cluster. -/
theorem c9_small_cluster_counterexample :
    ((identify_blackspot_zones exSteal (fr 1110) 4).getD []).map
        (fun s => s.accident_count) = [4, 3]
      ∧ (identify_blackspot_zones exSteal (fr 1110) 4).isSome = true := by
  constructor
  · decide
  · decide

/-- C9 (amended): every cluster summary has a member count of at least
one (its seed); counts below `min_samples` are possible when members of
the seed's neighbourhood were claimed by an earlier-discovered cluster. -/
theorem c9_cluster_count_pos (df : List Record) (e : Frac) (m : Nat)
    (out : List Blackspot) (s : Blackspot)
    (hout : identify_blackspot_zones df e m = some out) (hs : s ∈ out) :
    1 ≤ s.accident_count := by
  rcases mem_identify hout hs with ⟨cid, _, _, hne, hsum⟩
  rw [hsum]
  simp only [summarize]
  exact List.length_pos.mpr hne

/-- Witness for the amended C9 on the concrete `exSteal` frame. -/
theorem c9_cluster_count_pos_witness :
    1 ≤ (((identify_blackspot_zones exSteal (fr 1110) 4).getD []).headD
        bsDefault).accident_count :=
  c9_cluster_count_pos exSteal (fr 1110) 4
    ((identify_blackspot_zones exSteal (fr 1110) 4).getD [])
    (((identify_blackspot_zones exSteal (fr 1110) 4).getD []).headD bsDefault)
    (by decide) (by decide)

/-- C10: for every summary, the fatal, severe and light counts together
never exceed the member count, and members of other severities
(property-damage-only, "as4") are included in the member count and the
centroid means but contribute zero to the risk score, which is determined
by the three counted categories alone. -/
theorem c10_severity_partition (df : List Record) (e : Frac) (m : Nat)
    (out : List Blackspot) (s : Blackspot)
    (hout : identify_blackspot_zones df e m = some out) (hs : s ∈ out) :
    ∃ cid, s = summarize cid (clusterOf df (theLabels df e m) cid)
      ∧ s.accident_count = (clusterOf df (theLabels df e m) cid).length
      ∧ s.center_lat
        = fracMean ((clusterOf df (theLabels df e m) cid).map (fun r => r.latitude))
      ∧ s.center_lon
        = fracMean ((clusterOf df (theLabels df e m) cid).map (fun r => r.longitude))
      ∧ s.fatal_accidents + s.severe_accidents + s.light_accidents
        ≤ s.accident_count
      ∧ s.risk_score = 5 * s.fatal_accidents + 3 * s.severe_accidents
        + 1 * s.light_accidents := by
  rcases mem_identify hout hs with ⟨cid, _, _, _, hsum⟩
  refine ⟨cid, hsum, ?_, ?_, ?_, ?_, ?_⟩
  · rw [hsum]
    rfl
  · rw [hsum]
    rfl
  · rw [hsum]
    rfl
  · rw [hsum]
    simp only [summarize]
    exact severity_counts_le _
  · rw [hsum]
    simp only [summarize]
    omega

/-- Witness for C10 on the concrete `exSteal` frame. -/
theorem c10_severity_partition_witness :
    ∃ cid, (((identify_blackspot_zones exSteal (fr 1110) 4).getD []).headD
          bsDefault)
        = summarize cid (clusterOf exSteal (theLabels exSteal (fr 1110) 4) cid)
      ∧ (((identify_blackspot_zones exSteal (fr 1110) 4).getD []).headD
          bsDefault).accident_count
        = (clusterOf exSteal (theLabels exSteal (fr 1110) 4) cid).length
      ∧ (((identify_blackspot_zones exSteal (fr 1110) 4).getD []).headD
          bsDefault).center_lat
        = fracMean ((clusterOf exSteal (theLabels exSteal (fr 1110) 4) cid).map
          (fun r => r.latitude))
      ∧ (((identify_blackspot_zones exSteal (fr 1110) 4).getD []).headD
          bsDefault).center_lon
        = fracMean ((clusterOf exSteal (theLabels exSteal (fr 1110) 4) cid).map
          (fun r => r.longitude))
      ∧ (((identify_blackspot_zones exSteal (fr 1110) 4).getD []).headD
          bsDefault).fatal_accidents
        + (((identify_blackspot_zones exSteal (fr 1110) 4).getD []).headD
          bsDefault).severe_accidents
        + (((identify_blackspot_zones exSteal (fr 1110) 4).getD []).headD
          bsDefault).light_accidents
        ≤ (((identify_blackspot_zones exSteal (fr 1110) 4).getD []).headD
          bsDefault).accident_count
      ∧ (((identify_blackspot_zones exSteal (fr 1110) 4).getD []).headD
          bsDefault).risk_score
        = 5 * (((identify_blackspot_zones exSteal (fr 1110) 4).getD []).headD
          bsDefault).fatal_accidents
        + 3 * (((identify_blackspot_zones exSteal (fr 1110) 4).getD []).headD
          bsDefault).severe_accidents
        + 1 * (((identify_blackspot_zones exSteal (fr 1110) 4).getD []).headD
          bsDefault).light_accidents :=
  c10_severity_partition exSteal (fr 1110) 4
    ((identify_blackspot_zones exSteal (fr 1110) 4).getD [])
    (((identify_blackspot_zones exSteal (fr 1110) 4).getD []).headD bsDefault)
    (by decide) (by decide)
